import Mathlib

/-!
Shallow embedding of `src/utils/execute_action.py` (Android action executor).

JSON values arriving from `json.loads` are modelled by the inductive `JValue`.
Python numeric peculiarities that matter here are kept: `bool` is a subtype of
`int`, so `isinstance(c, (int, float))` accepts booleans, and `int(x)` maps
`True`/`False` to `1`/`0` and truncates floats toward zero.

External effects (the adb device bridge, the wall clock, the log file) are
modelled by an explicit environment `Env`; an invocation returns its
`ExecutionResult` together with a `Trace` recording the connectivity checks,
adb invocations and log writes it performed.
-/

/-- A JSON value as produced by Python's `json.loads`, refined to keep the
Python-level distinctions the code can observe: `bool`, `int` and `float`
are separate runtime types (floats are modelled as rationals). -/
inductive JValue where
  | null : JValue
  | bool : Bool → JValue
  | int : Int → JValue
  | float : Rat → JValue
  | str : String → JValue
  | arr : List JValue → JValue
  | obj : List (String × JValue) → JValue
deriving Repr

/-- Python `v == s` between a JSON value and a string literal: true exactly
when `v` is that string (no Python type coerces equal to `str`). -/
def pyEqStr (v : JValue) (s : String) : Bool :=
  match v with
  | .str t => t = s
  | _ => false

/-- Key lookup in a JSON object (Python `action["key"]` / `"key" in action`).
`json.loads` yields unique keys, so first-match lookup is exact. -/
def jlookup : List (String × JValue) → String → Option JValue
  | [], _ => none
  | (k, v) :: rest, key => if k = key then some v else jlookup rest key

/-- `action[k]` on a parsed value; `none` when the key is absent or the value
is not an object. -/
def getField (a : JValue) (k : String) : Option JValue :=
  match a with
  | .obj fields => jlookup fields k
  | _ => none

/-- Python `isinstance(c, (int, float))`.  `bool` is a subclass of `int` in
Python, so booleans count as numeric. -/
def isNumeric : JValue → Bool
  | .int _ => true
  | .float _ => true
  | .bool _ => true
  | _ => false

/-- Python `int(x)` on a numeric value: identity on ints, `True ↦ 1`,
`False ↦ 0`, truncation toward zero on floats.  (Validation guarantees the
argument is numeric; the catch-all is never reached on validated input.) -/
def pyInt : JValue → Int
  | .int n => n
  | .bool b => if b then 1 else 0
  | .float q => if 0 ≤ q then ⌊q⌋ else ⌈q⌉
  | _ => 0

/-- Python `str(v)` as interpolated into the invalid-action-type message.
Exact for strings, booleans, ints and `None`; compound and float values get a
placeholder rendering (no claim inspects the message for those inputs). -/
def pyStr : JValue → String
  | .str s => s
  | .bool true => "True"
  | .bool false => "False"
  | .int n => toString n
  | .float q => toString q
  | .null => "None"
  | .arr _ => "<list>"
  | .obj _ => "<dict>"

/-- The `valid_actions` list from `validate_action`. -/
def valid_actions : List String := ["tap", "type", "home", "back", "wait", "done"]

/-- `validate_action(action)` from the source: returns `(is_valid, error_msg)`.
Mirrors the source checks in order: mapping check, presence of `"action"`,
membership of its value in `valid_actions` (a non-string value is never equal
to any of the six strings, hence rejected), then the tap/type field checks. -/
def validate_action (action : JValue) : Bool × String :=
  match action with
  | .obj fields =>
    match jlookup fields "action" with
    | none => (false, "Missing 'action' field")
    | some action_type =>
      if ¬ valid_actions.any (fun s => pyEqStr action_type s) then
        (false, "Invalid action type '" ++ pyStr action_type ++
          "'. Must be one of: ['tap', 'type', 'home', 'back', 'wait', 'done']")
      else if pyEqStr action_type "tap" then
        match jlookup fields "coordinates" with
        | none => (false, "tap action requires 'coordinates' field")
        | some coords =>
          match coords with
          | .arr cs =>
            if cs.length ≠ 2 then (false, "coordinates must be [x, y] array")
            else if ¬ cs.all isNumeric then (false, "coordinates must be numeric")
            else (true, "")
          | _ => (false, "coordinates must be [x, y] array")
      else if pyEqStr action_type "type" then
        match jlookup fields "text" with
        | none => (false, "type action requires 'text' field")
        | some t =>
          match t with
          | .str _ => (true, "")
          | _ => (false, "text must be a string")
      else (true, "")
  | _ => (false, "Action must be a JSON object")

/-- The `text.replace(" ", "%s")` encoding from the `type` branch: every
space character of the text is replaced by the token `%s` before the string
is handed to `adb shell input text`. -/
def encodeSpaces (s : String) : String :=
  String.mk (s.data.foldr (fun c acc => (if c = ' ' then ['%', 's'] else [c]) ++ acc) [])

/-- The result dictionary returned by `execute_action`: `status` is
`"success"` or `"error"`; the `action` key is present only on success. -/
structure ExecutionResult where
  status : String
  action : Option String
  message : String
deriving Repr, DecidableEq

/-- External world of one invocation: the adb collaborator (connectivity
check and command runner — `run_adb` returns `(stdout, stderr, exit_code)`
or raises, which `Except.error` models), the timestamp used by the logger,
and whether the log-file append would fail. -/
structure Env where
  check_device_connected : Bool
  run_adb : List String → Except String (String × String × Int)
  now : String
  log_write_fails : Bool

/-- A log request as issued by the dispatch code: `(action_type, details,
status)` — the three arguments passed to `log_action`. -/
abbrev LogReq := String × String × String

/-- Observable effects of one `execute_action` call: how many connectivity
checks ran, which adb commands were invoked, which log lines were attempted
(`log_action` formats and tries to append each one), and which actually
reached the file. -/
structure Trace where
  conn_checks : Nat
  adb_calls : List (List String)
  log_attempts : List String
  log_file : List String
deriving Repr, DecidableEq

/-- The formatted log line of `log_action`:
`[timestamp] ACTION: type(details) -> status` plus newline. -/
def mkLogEntry (now action_type details status : String) : String :=
  "[" ++ now ++ "] ACTION: " ++ action_type ++ "(" ++ details ++ ") -> " ++ status ++ "\n"

/-- `log_action(action_type, details, status)`: formats the line and tries to
append it; any filesystem failure is swallowed (`except: pass`), so the call
always returns normally.  Returns the formatted line and whether the append
actually happened. -/
def log_action (env : Env) (action_type details status : String) : String × Bool :=
  (mkLogEntry env.now action_type details status, ! env.log_write_fails)

/-- The shared shape of the four device-command branches of
`execute_action`'s try-block: invoke the adb command, and on a raised
exception (`.error`, caught by the surrounding `except`) log
`(action_type, "", "ERROR: <e>")` and report `"Execution error: <e>"`; on a
non-zero exit code log `(action_type, detail, "ERROR: <stderr>")` and report
`"<failPrefix><stderr>"`; on exit code 0 log `(action_type, detail,
"SUCCESS")` and report the branch's success dictionary. -/
def runDevice (run : List String → Except String (String × String × Int))
    (args : List String) (action_type detail failPrefix : String)
    (success : ExecutionResult) :
    Option ExecutionResult × List (List String) × List LogReq :=
  match run args with
  | .error e =>
    (some ⟨"error", none, "Execution error: " ++ e⟩, [args],
      [(action_type, "", "ERROR: " ++ e)])
  | .ok (_, stderr, code) =>
    if code ≠ 0 then
      (some ⟨"error", none, failPrefix ++ stderr⟩, [args],
        [(action_type, detail, "ERROR: " ++ stderr)])
    else
      (some success, [args], [(action_type, detail, "SUCCESS")])

/-- Pure outcome of the validate/gate/dispatch logic of `execute_action`,
before the logging side effects are interpreted against the filesystem:
the returned dictionary (`none` models Python's implicit `return None` on
the unreachable fall-through), the number of connectivity checks, the adb
invocations and the log requests.  Faithful line-by-line image of
`execute_action`'s body; the `(none, ...)` defaults correspond to places
where Python would fall through or raise, all unreachable on validated
input. -/
def exec_core (action : JValue) (connected : Bool)
    (run : List String → Except String (String × String × Int)) :
    Option ExecutionResult × Nat × List (List String) × List LogReq :=
  match validate_action action with
  | (false, error_msg) => (some ⟨"error", none, error_msg⟩, 0, [], [])
  | (true, _) =>
    let action_type := (getField action "action").getD .null
    let dispatch : Option ExecutionResult × List (List String) × List LogReq :=
      if pyEqStr action_type "tap" then
        match getField action "coordinates" with
        | some (.arr [xv, yv]) =>
          let x := pyInt xv
          let y := pyInt yv
          runDevice run ["shell", "input", "tap", toString x, toString y] "tap"
            (toString x ++ "," ++ toString y) "Tap failed: "
            ⟨"success", some "tap", "Tapped at (" ++ toString x ++ ", " ++ toString y ++ ")"⟩
        | _ => (none, [], [])
      else if pyEqStr action_type "type" then
        match getField action "text" with
        | some (.str text) =>
          runDevice run ["shell", "input", "text", encodeSpaces text] "type"
            text "Type failed: "
            ⟨"success", some "type", "Typed: " ++ text⟩
        | _ => (none, [], [])
      else if pyEqStr action_type "home" then
        runDevice run ["shell", "input", "keyevent", "KEYCODE_HOME"] "home"
          "" "Home failed: "
          ⟨"success", some "home", "Pressed Home button"⟩
      else if pyEqStr action_type "back" then
        runDevice run ["shell", "input", "keyevent", "KEYCODE_BACK"] "back"
          "" "Back failed: "
          ⟨"success", some "back", "Pressed Back button"⟩
      else if pyEqStr action_type "wait" then
        (some ⟨"success", some "wait", "Waited 2 seconds"⟩, [],
          [("wait", "2s", "SUCCESS")])
      else if pyEqStr action_type "done" then
        (some ⟨"success", some "done", "Goal achieved - task complete"⟩, [],
          [("done", "", "SUCCESS")])
      else (none, [], [])
    if (pyEqStr action_type "done" || pyEqStr action_type "wait") = false then
      if connected = false then
        (some ⟨"error", none, "No Android device connected"⟩, 1, [], [])
      else
        (dispatch.1, 1, dispatch.2.1, dispatch.2.2)
    else
      (dispatch.1, 0, dispatch.2.1, dispatch.2.2)

/-- `execute_action(action)` against environment `env`: runs the pure core
and interprets its log requests through `log_action` (each attempt is
recorded; the line reaches the file only when the append does not fail). -/
def execute_action (action : JValue) (env : Env) : Option ExecutionResult × Trace :=
  let o := exec_core action env.check_device_connected env.run_adb
  let attempts := o.2.2.2.map (fun l => (log_action env l.1 l.2.1 l.2.2).1)
  (o.1, ⟨o.2.1, o.2.2.1, attempts, if env.log_write_fails then [] else attempts⟩)

/-- The result object emitted by `main` when the chosen input is empty. -/
def noActionResult : ExecutionResult :=
  ⟨"error", none, "No action provided. Use --json flag or pipe JSON via stdin"⟩

/-- Python `str.strip()` with no argument: drop leading and trailing
whitespace characters. -/
def pyStrip (s : String) : String :=
  String.mk (((s.data.dropWhile Char.isWhitespace).reverse.dropWhile
    Char.isWhitespace).reverse)

/-- `main`'s input selection: `if args.json: action_json = args.json else:
action_json = sys.stdin.read().strip()`.  A `--json` value that is the empty
string is falsy in Python, so it falls through to stdin exactly like an
absent flag; the stdin text is stripped of surrounding whitespace, the flag
value is used verbatim. -/
def chooseInput (jsonArg : Option String) (stdin : String) : String :=
  match jsonArg with
  | some s => if s = "" then pyStrip stdin else s
  | none => pyStrip stdin

/-- Observable behaviour of one `main` invocation: the JSON object printed
to stdout (`none` models the unreachable branch where `execute_action`
returns Python `None`, printing `null` and then crashing), the process exit
code, whether `json.loads` was invoked, and the execution trace. -/
structure MainOut where
  printed : Option ExecutionResult
  exitCode : Nat
  parseAttempted : Bool
  trace : Trace
deriving Repr, DecidableEq

/-- `main()` from the source, parameterised by `loads` — the external
`json.loads`, which returns the parsed value or raises `JSONDecodeError`
(modelled by `Except.error` carrying the parser diagnostic).  Empty chosen
input exits 1 without parsing; a parse failure prints the invalid-JSON
result and exits 1; otherwise the action executes, the result is printed,
and the exit code is 3 when `result["status"] == "error"` and 0 otherwise
(including `done`). -/
def pyMain (loads : String → Except String JValue) (jsonArg : Option String)
    (stdin : String) (env : Env) : MainOut :=
  let action_json := chooseInput jsonArg stdin
  if action_json = "" then
    ⟨some noActionResult, 1, false, ⟨0, [], [], []⟩⟩
  else
    match loads action_json with
    | .error e => ⟨some ⟨"error", none, "Invalid JSON: " ++ e⟩, 1, true, ⟨0, [], [], []⟩⟩
    | .ok action =>
      match execute_action action env with
      | (some result, tr) => ⟨some result, if result.status = "error" then 3 else 0, true, tr⟩
      | (none, tr) => ⟨none, 1, true, tr⟩

/-- An execution path "reaches action dispatch" when validation passed and,
for device actions (everything except `done`/`wait`), the connectivity check
passed.  This is exactly the condition under which the try-block of
`execute_action` runs. -/
def reaches_dispatch (a : JValue) (connected : Bool) : Bool :=
  (validate_action a).1 &&
    (pyEqStr ((getField a "action").getD .null) "done" ||
     pyEqStr ((getField a "action").getD .null) "wait" ||
     connected)

/-- The adb command-line dispatched for a validated action: the argument
lists appearing in the source's `run_adb` calls (`wait` and `done` dispatch
no command). -/
def adbArgsFor (a : JValue) : Option (List String) :=
  let aty := (getField a "action").getD .null
  if pyEqStr aty "tap" then
    match getField a "coordinates" with
    | some (.arr [xv, yv]) =>
      some ["shell", "input", "tap", toString (pyInt xv), toString (pyInt yv)]
    | _ => none
  else if pyEqStr aty "type" then
    match getField a "text" with
    | some (.str t) => some ["shell", "input", "text", encodeSpaces t]
    | _ => none
  else if pyEqStr aty "home" then some ["shell", "input", "keyevent", "KEYCODE_HOME"]
  else if pyEqStr aty "back" then some ["shell", "input", "keyevent", "KEYCODE_BACK"]
  else none

/-- Concrete environment: device connected, every adb command succeeds with
empty output and exit code 0, log writes succeed. -/
def adbOk : Env := ⟨true, fun _ => .ok ("", "", 0), "2026-01-01 00:00:00", false⟩

/-- Concrete environment: no device connected. -/
def adbDisconnected : Env := ⟨false, fun _ => .ok ("", "", 0), "2026-01-01 00:00:00", false⟩

/-- Concrete environment: device connected but every adb invocation raises
(models `subprocess` itself failing). -/
def adbRaises : Env := ⟨true, fun _ => .error "boom", "2026-01-01 00:00:00", false⟩

/-- Concrete stand-in for `json.loads` on inputs that are not valid JSON:
always raises `JSONDecodeError` with CPython's diagnostic for a
whitespace-only document.  Used only to instantiate `pyMain` at inputs
(such as a lone space) on which the real parser raises. -/
def loadsRejects : String → Except String JValue :=
  fun _ => .error "Expecting value: line 1 column 1 (char 0)"

/-! ### Inversion lemmas for `validate_action` -/

lemma pyEqStr_true_iff (v : JValue) (s : String) : pyEqStr v s = true ↔ v = .str s := by
  cases v <;> simp [pyEqStr]

lemma validate_obj_of_true {a : JValue} (h : (validate_action a).1 = true) :
    ∃ fields, a = .obj fields := by
  cases a <;> first
    | exact ⟨_, rfl⟩
    | simp [validate_action] at h

lemma validate_action_field {fields : List (String × JValue)}
    (h : (validate_action (.obj fields)).1 = true) :
    ∃ s, jlookup fields "action" = some (.str s) ∧ s ∈ valid_actions := by
  rcases hA : jlookup fields "action" with _ | aty
  · simp only [validate_action] at h
    rw [hA] at h
    simp at h
  · simp only [validate_action] at h
    rw [hA] at h
    by_cases hv : (valid_actions.any fun s => pyEqStr aty s) = true
    · rcases List.any_eq_true.mp hv with ⟨s, hs, hps⟩
      exact ⟨s, by rw [(pyEqStr_true_iff aty s).mp hps], hs⟩
    · simp [hv] at h

lemma validate_tap_shape {fields : List (String × JValue)}
    (h : (validate_action (.obj fields)).1 = true)
    (hA : jlookup fields "action" = some (.str "tap")) :
    ∃ xv yv, jlookup fields "coordinates" = some (.arr [xv, yv]) ∧
      isNumeric xv = true ∧ isNumeric yv = true := by
  simp only [validate_action] at h
  rw [hA] at h
  simp only [valid_actions, List.any, pyEqStr, Bool.or_eq_true, decide_eq_true_eq] at h
  rcases hC : jlookup fields "coordinates" with _ | coords
  · rw [hC] at h
    simp at h
  · rw [hC] at h
    cases coords <;> simp_all
    case arr cs =>
      rcases cs with _ | ⟨xv, _ | ⟨yv, _ | _⟩⟩ <;> simp_all
      by_cases hn : isNumeric xv = false ∨ isNumeric yv = false
      · simp [hn] at h
      · push_neg at hn
        refine ⟨xv, yv, ⟨rfl, rfl⟩, ?_, ?_⟩
        · revert hn
          cases isNumeric xv <;> simp
        · revert hn
          cases isNumeric yv <;> simp

lemma validate_type_shape {fields : List (String × JValue)}
    (h : (validate_action (.obj fields)).1 = true)
    (hA : jlookup fields "action" = some (.str "type")) :
    ∃ t, jlookup fields "text" = some (.str t) := by
  simp only [validate_action] at h
  rw [hA] at h
  simp only [valid_actions, List.any, pyEqStr, Bool.or_eq_true, decide_eq_true_eq] at h
  rcases hT : jlookup fields "text" with _ | t
  · rw [hT] at h
    simp at h
  · rw [hT] at h
    cases t <;> simp_all

/-! ### Evaluation lemmas -/

lemma validate_simple_eval {fields : List (String × JValue)} {s : String}
    (hA : jlookup fields "action" = some (.str s))
    (hs : s = "home" ∨ s = "back" ∨ s = "wait" ∨ s = "done") :
    validate_action (.obj fields) = (true, "") := by
  rcases hs with rfl | rfl | rfl | rfl <;>
    · simp only [validate_action]
      rw [hA]
      simp [valid_actions, pyEqStr]

lemma validate_tap_eval {fields : List (String × JValue)} {xv yv : JValue}
    (hA : jlookup fields "action" = some (.str "tap"))
    (hC : jlookup fields "coordinates" = some (.arr [xv, yv]))
    (hx : isNumeric xv = true) (hy : isNumeric yv = true) :
    validate_action (.obj fields) = (true, "") := by
  simp only [validate_action]
  rw [hA]
  simp only [valid_actions, List.any, pyEqStr, Bool.or_eq_true, decide_eq_true_eq]
  rw [hC]
  simp [hx, hy]

lemma validate_type_eval {fields : List (String × JValue)} {t : String}
    (hA : jlookup fields "action" = some (.str "type"))
    (hT : jlookup fields "text" = some (.str t)) :
    validate_action (.obj fields) = (true, "") := by
  simp only [validate_action]
  rw [hA]
  simp only [valid_actions, List.any, pyEqStr, Bool.or_eq_true, decide_eq_true_eq]
  rw [hT]
  simp

lemma exec_core_invalid {a : JValue} {conn : Bool}
    {run : List String → Except String (String × String × Int)}
    (h : (validate_action a).1 = false) :
    exec_core a conn run = (some ⟨"error", none, (validate_action a).2⟩, 0, [], []) := by
  have hv : validate_action a = (false, (validate_action a).2) := by
    rw [← h]
  simp only [exec_core]
  rw [hv]

lemma exec_core_done {fields : List (String × JValue)} {conn : Bool}
    {run : List String → Except String (String × String × Int)}
    (hA : jlookup fields "action" = some (.str "done")) :
    exec_core (.obj fields) conn run =
      (some ⟨"success", some "done", "Goal achieved - task complete"⟩, 0, [],
        [("done", "", "SUCCESS")]) := by
  have hv := validate_simple_eval hA (.inr (.inr (.inr rfl)))
  simp only [exec_core]
  rw [hv]
  simp [getField, hA, pyEqStr]

lemma exec_core_wait {fields : List (String × JValue)} {conn : Bool}
    {run : List String → Except String (String × String × Int)}
    (hA : jlookup fields "action" = some (.str "wait")) :
    exec_core (.obj fields) conn run =
      (some ⟨"success", some "wait", "Waited 2 seconds"⟩, 0, [],
        [("wait", "2s", "SUCCESS")]) := by
  have hv := validate_simple_eval hA (.inr (.inr (.inl rfl)))
  simp only [exec_core]
  rw [hv]
  simp [getField, hA, pyEqStr]

lemma exec_core_no_device {fields : List (String × JValue)} {s : String}
    {run : List String → Except String (String × String × Int)}
    (hA : jlookup fields "action" = some (.str s))
    (hval : validate_action (.obj fields) = (true, ""))
    (hs : (decide (s = "done") || decide (s = "wait")) = false) :
    exec_core (.obj fields) false run =
      (some ⟨"error", none, "No Android device connected"⟩, 1, [], []) := by
  simp only [exec_core]
  rw [hval]
  simp [getField, hA, pyEqStr, hs]

lemma exec_core_tap {fields : List (String × JValue)} {xv yv : JValue}
    {run : List String → Except String (String × String × Int)}
    (hA : jlookup fields "action" = some (.str "tap"))
    (hC : jlookup fields "coordinates" = some (.arr [xv, yv]))
    (hx : isNumeric xv = true) (hy : isNumeric yv = true) :
    exec_core (.obj fields) true run =
      ((runDevice run ["shell", "input", "tap", toString (pyInt xv), toString (pyInt yv)] "tap"
          (toString (pyInt xv) ++ "," ++ toString (pyInt yv)) "Tap failed: "
          ⟨"success", some "tap",
            "Tapped at (" ++ toString (pyInt xv) ++ ", " ++ toString (pyInt yv) ++ ")"⟩).1, 1,
       (runDevice run ["shell", "input", "tap", toString (pyInt xv), toString (pyInt yv)] "tap"
          (toString (pyInt xv) ++ "," ++ toString (pyInt yv)) "Tap failed: "
          ⟨"success", some "tap",
            "Tapped at (" ++ toString (pyInt xv) ++ ", " ++ toString (pyInt yv) ++ ")"⟩).2.1,
       (runDevice run ["shell", "input", "tap", toString (pyInt xv), toString (pyInt yv)] "tap"
          (toString (pyInt xv) ++ "," ++ toString (pyInt yv)) "Tap failed: "
          ⟨"success", some "tap",
            "Tapped at (" ++ toString (pyInt xv) ++ ", " ++ toString (pyInt yv) ++ ")"⟩).2.2) := by
  have hval := validate_tap_eval hA hC hx hy
  simp only [exec_core]
  rw [hval]
  simp only [getField, hA, Option.getD_some, pyEqStr]
  rw [hC]
  simp

lemma exec_core_type {fields : List (String × JValue)} {t : String}
    {run : List String → Except String (String × String × Int)}
    (hA : jlookup fields "action" = some (.str "type"))
    (hT : jlookup fields "text" = some (.str t)) :
    exec_core (.obj fields) true run =
      ((runDevice run ["shell", "input", "text", encodeSpaces t] "type" t "Type failed: "
          ⟨"success", some "type", "Typed: " ++ t⟩).1, 1,
       (runDevice run ["shell", "input", "text", encodeSpaces t] "type" t "Type failed: "
          ⟨"success", some "type", "Typed: " ++ t⟩).2.1,
       (runDevice run ["shell", "input", "text", encodeSpaces t] "type" t "Type failed: "
          ⟨"success", some "type", "Typed: " ++ t⟩).2.2) := by
  have hval := validate_type_eval hA hT
  simp only [exec_core]
  rw [hval]
  simp only [getField, hA, Option.getD_some, pyEqStr]
  rw [hT]
  simp

lemma exec_core_home {fields : List (String × JValue)}
    {run : List String → Except String (String × String × Int)}
    (hA : jlookup fields "action" = some (.str "home")) :
    exec_core (.obj fields) true run =
      ((runDevice run ["shell", "input", "keyevent", "KEYCODE_HOME"] "home" "" "Home failed: "
          ⟨"success", some "home", "Pressed Home button"⟩).1, 1,
       (runDevice run ["shell", "input", "keyevent", "KEYCODE_HOME"] "home" "" "Home failed: "
          ⟨"success", some "home", "Pressed Home button"⟩).2.1,
       (runDevice run ["shell", "input", "keyevent", "KEYCODE_HOME"] "home" "" "Home failed: "
          ⟨"success", some "home", "Pressed Home button"⟩).2.2) := by
  have hval := validate_simple_eval hA (.inl rfl)
  simp only [exec_core]
  rw [hval]
  simp [getField, hA, pyEqStr]

lemma exec_core_back {fields : List (String × JValue)}
    {run : List String → Except String (String × String × Int)}
    (hA : jlookup fields "action" = some (.str "back")) :
    exec_core (.obj fields) true run =
      ((runDevice run ["shell", "input", "keyevent", "KEYCODE_BACK"] "back" "" "Back failed: "
          ⟨"success", some "back", "Pressed Back button"⟩).1, 1,
       (runDevice run ["shell", "input", "keyevent", "KEYCODE_BACK"] "back" "" "Back failed: "
          ⟨"success", some "back", "Pressed Back button"⟩).2.1,
       (runDevice run ["shell", "input", "keyevent", "KEYCODE_BACK"] "back" "" "Back failed: "
          ⟨"success", some "back", "Pressed Back button"⟩).2.2) := by
  have hval := validate_simple_eval hA (.inr (.inl rfl))
  simp only [exec_core]
  rw [hval]
  simp [getField, hA, pyEqStr]

lemma runDevice_raise {run : List String → Except String (String × String × Int)}
    {args : List String} {aty detail fp : String} {succ : ExecutionResult} {e : String}
    (h : run args = .error e) :
    runDevice run args aty detail fp succ =
      (some ⟨"error", none, "Execution error: " ++ e⟩, [args], [(aty, "", "ERROR: " ++ e)]) := by
  simp [runDevice, h]

lemma runDevice_ok {run : List String → Except String (String × String × Int)}
    {args : List String} {aty detail fp : String} {succ : ExecutionResult} {so se : String}
    (h : run args = .ok (so, se, 0)) :
    runDevice run args aty detail fp succ = (some succ, [args], [(aty, detail, "SUCCESS")]) := by
  simp [runDevice, h]

lemma runDevice_fail {run : List String → Except String (String × String × Int)}
    {args : List String} {aty detail fp : String} {succ : ExecutionResult} {so se : String}
    {code : Int} (h : run args = .ok (so, se, code)) (hc : code ≠ 0) :
    runDevice run args aty detail fp succ =
      (some ⟨"error", none, fp ++ se⟩, [args], [(aty, detail, "ERROR: " ++ se)]) := by
  simp [runDevice, h, hc]

lemma runDevice_shape (run : List String → Except String (String × String × Int))
    (args : List String) (aty detail fp : String) (succ : ExecutionResult)
    (hsucc : succ.status = "success") :
    (∃ r, (runDevice run args aty detail fp succ).1 = some r ∧
      (r.status = "success" ∨ r.status = "error")) ∧
    (runDevice run args aty detail fp succ).2.2.length = 1 := by
  rcases h : run args with e | ⟨so, se, code⟩
  · rw [runDevice_raise h]
    exact ⟨⟨_, rfl, .inr rfl⟩, rfl⟩
  · by_cases hc : code = 0
    · subst hc
      rw [runDevice_ok h]
      exact ⟨⟨_, rfl, .inl hsucc⟩, rfl⟩
    · rw [runDevice_fail h hc]
      exact ⟨⟨_, rfl, .inr rfl⟩, rfl⟩

lemma exec_core_shape (a : JValue) (conn : Bool)
    (run : List String → Except String (String × String × Int)) :
    (∃ r, (exec_core a conn run).1 = some r ∧ (r.status = "success" ∨ r.status = "error")) ∧
    (exec_core a conn run).2.2.2.length =
      (if reaches_dispatch a conn then 1 else 0) := by
  by_cases hval : (validate_action a).1 = true
  · obtain ⟨fields, rfl⟩ := validate_obj_of_true hval
    obtain ⟨s, hA, hs⟩ := validate_action_field hval
    simp only [valid_actions, List.mem_cons, List.not_mem_nil, or_false] at hs
    rcases hs with rfl | rfl | rfl | rfl | rfl | rfl
    · -- tap
      obtain ⟨xv, yv, hC, hx, hy⟩ := validate_tap_shape hval hA
      cases conn
      · rw [exec_core_no_device hA (validate_tap_eval hA hC hx hy) (by decide)]
        exact ⟨⟨_, rfl, .inr rfl⟩, by simp [reaches_dispatch, hval, getField, hA, pyEqStr]⟩
      · rw [exec_core_tap hA hC hx hy]
        have h2 := runDevice_shape run
          ["shell", "input", "tap", toString (pyInt xv), toString (pyInt yv)] "tap"
          (toString (pyInt xv) ++ "," ++ toString (pyInt yv)) "Tap failed: "
          ⟨"success", some "tap",
            "Tapped at (" ++ toString (pyInt xv) ++ ", " ++ toString (pyInt yv) ++ ")"⟩ rfl
        exact ⟨h2.1, by simp [reaches_dispatch, hval, getField, hA, pyEqStr, h2.2]⟩
    · -- type
      obtain ⟨t, hT⟩ := validate_type_shape hval hA
      cases conn
      · rw [exec_core_no_device hA (validate_type_eval hA hT) (by decide)]
        exact ⟨⟨_, rfl, .inr rfl⟩, by simp [reaches_dispatch, hval, getField, hA, pyEqStr]⟩
      · rw [exec_core_type hA hT]
        have h2 := runDevice_shape run ["shell", "input", "text", encodeSpaces t] "type" t
          "Type failed: " ⟨"success", some "type", "Typed: " ++ t⟩ rfl
        exact ⟨h2.1, by simp [reaches_dispatch, hval, getField, hA, pyEqStr, h2.2]⟩
    · -- home
      cases conn
      · rw [exec_core_no_device hA (validate_simple_eval hA (.inl rfl)) (by decide)]
        exact ⟨⟨_, rfl, .inr rfl⟩, by simp [reaches_dispatch, hval, getField, hA, pyEqStr]⟩
      · rw [exec_core_home hA]
        have h2 := runDevice_shape run ["shell", "input", "keyevent", "KEYCODE_HOME"] "home" ""
          "Home failed: " ⟨"success", some "home", "Pressed Home button"⟩ rfl
        exact ⟨h2.1, by simp [reaches_dispatch, hval, getField, hA, pyEqStr, h2.2]⟩
    · -- back
      cases conn
      · rw [exec_core_no_device hA (validate_simple_eval hA (.inr (.inl rfl))) (by decide)]
        exact ⟨⟨_, rfl, .inr rfl⟩, by simp [reaches_dispatch, hval, getField, hA, pyEqStr]⟩
      · rw [exec_core_back hA]
        have h2 := runDevice_shape run ["shell", "input", "keyevent", "KEYCODE_BACK"] "back" ""
          "Back failed: " ⟨"success", some "back", "Pressed Back button"⟩ rfl
        exact ⟨h2.1, by simp [reaches_dispatch, hval, getField, hA, pyEqStr, h2.2]⟩
    · -- wait
      rw [exec_core_wait hA]
      exact ⟨⟨_, rfl, .inl rfl⟩, by simp [reaches_dispatch, hval, getField, hA, pyEqStr]⟩
    · -- done
      rw [exec_core_done hA]
      exact ⟨⟨_, rfl, .inl rfl⟩, by simp [reaches_dispatch, hval, getField, hA, pyEqStr]⟩
  · have hv : (validate_action a).1 = false := by
      revert hval
      cases (validate_action a).1 <;> simp
    rw [exec_core_invalid hv]
    exact ⟨⟨_, rfl, .inr rfl⟩, by simp [reaches_dispatch, hv]⟩

/-! ### Claim theorems -/

/-- C1: every call to `execute_action` returns exactly one result dictionary
carrying a `status` key (`"success"` or `"error"`; in particular the Python
fall-through that would return `None` is unreachable), and it attempts
exactly one log write if and only if the path reaches action dispatch —
validation passed and, for device actions, the connectivity check passed;
validation-failure and connectivity-failure paths attempt none. -/
theorem execute_action_one_result_one_log (a : JValue) (env : Env) :
    (∃ r, (execute_action a env).1 = some r ∧
      (r.status = "success" ∨ r.status = "error")) ∧
    (execute_action a env).2.log_attempts.length =
      (if reaches_dispatch a env.check_device_connected then 1 else 0) := by
  have h := exec_core_shape a env.check_device_connected env.run_adb
  exact ⟨h.1, by simpa [execute_action] using h.2⟩

/-- C8: a failing log write changes nothing observable about
`execute_action` apart from the file itself: the returned result and even
the attempted log lines are identical whether or not the append succeeds,
and `log_action` (total by construction, mirroring its `except: pass`)
formats the same line either way.  A successful action is therefore never
reported as failed because of a logging error. -/
theorem execute_action_log_failure_immaterial (a : JValue) (env : Env) (b : Bool)
    (t d s : String) :
    (execute_action a { env with log_write_fails := b }).1 = (execute_action a env).1 ∧
    (execute_action a { env with log_write_fails := b }).2.log_attempts =
      (execute_action a env).2.log_attempts ∧
    (log_action { env with log_write_fails := b } t d s).1 = (log_action env t d s).1 :=
  ⟨rfl, rfl, rfl⟩

/-- C7: for any object whose `action` field is `"done"` (whatever other
fields it carries), `execute_action` performs no connectivity check and no
adb call, returns exactly the fixed success dictionary, and the result is
independent of the environment (so repeated invocations agree regardless of
device state). -/
theorem execute_action_done_pure (env : Env) (fields : List (String × JValue))
    (hA : jlookup fields "action" = some (.str "done")) :
    (execute_action (.obj fields) env).1 =
      some ⟨"success", some "done", "Goal achieved - task complete"⟩ ∧
    (execute_action (.obj fields) env).2.conn_checks = 0 ∧
    (execute_action (.obj fields) env).2.adb_calls = [] ∧
    ∀ env', (execute_action (.obj fields) env).1 = (execute_action (.obj fields) env').1 := by
  refine ⟨?_, ?_, ?_, fun env' => ?_⟩ <;>
    simp [execute_action, exec_core_done hA]

theorem execute_action_done_pure_witness :
    (execute_action (.obj [("action", .str "done")]) adbDisconnected).1 =
      some ⟨"success", some "done", "Goal achieved - task complete"⟩ :=
  (execute_action_done_pure adbDisconnected [("action", .str "done")] rfl).1

/-- C2: for every validated action other than `wait`/`done`, a failed
connectivity check makes `execute_action` return exactly the
no-device error with one connectivity check, no adb call and no log
attempt; for `wait` and `done` the connectivity check is never performed. -/
theorem execute_action_connectivity_gate (a : JValue) (env : Env)
    (hval : (validate_action a).1 = true) :
    ((pyEqStr ((getField a "action").getD .null) "wait" ||
      pyEqStr ((getField a "action").getD .null) "done") = false →
      env.check_device_connected = false →
      execute_action a env =
        (some ⟨"error", none, "No Android device connected"⟩, ⟨1, [], [], []⟩)) ∧
    ((pyEqStr ((getField a "action").getD .null) "wait" ||
      pyEqStr ((getField a "action").getD .null) "done") = true →
      (execute_action a env).2.conn_checks = 0) := by
  obtain ⟨fields, rfl⟩ := validate_obj_of_true hval
  obtain ⟨s, hA, hs⟩ := validate_action_field hval
  simp only [valid_actions, List.mem_cons, List.not_mem_nil, or_false] at hs
  have gate : ∀ hvv : validate_action (.obj fields) = (true, ""),
      (decide (s = "done") || decide (s = "wait")) = false →
      env.check_device_connected = false →
      execute_action (.obj fields) env =
        (some ⟨"error", none, "No Android device connected"⟩, ⟨1, [], [], []⟩) := by
    intro hvv hsd hconn
    simp only [execute_action]
    rw [hconn, exec_core_no_device hA hvv hsd]
    simp
  rcases hs with rfl | rfl | rfl | rfl | rfl | rfl
  · -- tap
    obtain ⟨xv, yv, hC, hx, hy⟩ := validate_tap_shape hval hA
    constructor
    · intro _ hconn
      exact gate (validate_tap_eval hA hC hx hy) (by decide) hconn
    · intro h
      simp [getField, hA, pyEqStr] at h
  · -- type
    obtain ⟨t, hT⟩ := validate_type_shape hval hA
    constructor
    · intro _ hconn
      exact gate (validate_type_eval hA hT) (by decide) hconn
    · intro h
      simp [getField, hA, pyEqStr] at h
  · -- home
    constructor
    · intro _ hconn
      exact gate (validate_simple_eval hA (.inl rfl)) (by decide) hconn
    · intro h
      simp [getField, hA, pyEqStr] at h
  · -- back
    constructor
    · intro _ hconn
      exact gate (validate_simple_eval hA (.inr (.inl rfl))) (by decide) hconn
    · intro h
      simp [getField, hA, pyEqStr] at h
  · -- wait
    constructor
    · intro h
      simp [getField, hA, pyEqStr] at h
    · intro _
      simp [execute_action, exec_core_wait hA]
  · -- done
    constructor
    · intro h
      simp [getField, hA, pyEqStr] at h
    · intro _
      simp [execute_action, exec_core_done hA]

theorem execute_action_connectivity_gate_witness :
    (pyEqStr ((getField (.obj [("action", .str "back")]) "action").getD .null) "wait" ||
      pyEqStr ((getField (.obj [("action", .str "back")]) "action").getD .null) "done") = false ∧
    execute_action (.obj [("action", .str "back")]) adbDisconnected =
      (some ⟨"error", none, "No Android device connected"⟩, ⟨1, [], [], []⟩) :=
  ⟨rfl, (execute_action_connectivity_gate (.obj [("action", .str "back")])
    adbDisconnected rfl).1 rfl rfl⟩

/-- C3: after validation and the connectivity check, any exception raised by
the dispatched adb invocation is caught by the try/except of
`execute_action`: it is logged as an ERROR carrying the exception text and
the call still returns (one result, never a propagated fault) with exactly
`"Execution error: <details>"`.  Totality of `execute_action` itself is the
no-propagation guarantee. -/
theorem execute_action_catches_exceptions (a : JValue) (env : Env)
    (args : List String) (e : String)
    (hval : (validate_action a).1 = true)
    (hconn : env.check_device_connected = true)
    (hargs : adbArgsFor a = some args)
    (hrun : env.run_adb args = .error e) :
    (execute_action a env).1 = some ⟨"error", none, "Execution error: " ++ e⟩ ∧
    (execute_action a env).2.log_attempts =
      [mkLogEntry env.now (pyStr ((getField a "action").getD .null)) "" ("ERROR: " ++ e)] := by
  obtain ⟨fields, rfl⟩ := validate_obj_of_true hval
  obtain ⟨s, hA, hs⟩ := validate_action_field hval
  simp only [valid_actions, List.mem_cons, List.not_mem_nil, or_false] at hs
  rcases hs with rfl | rfl | rfl | rfl | rfl | rfl
  · -- tap
    obtain ⟨xv, yv, hC, hx, hy⟩ := validate_tap_shape hval hA
    have hargs' : args =
        ["shell", "input", "tap", toString (pyInt xv), toString (pyInt yv)] := by
      simp only [adbArgsFor, getField, hA, Option.getD_some, pyEqStr] at hargs
      rw [hC] at hargs
      simp at hargs
      exact hargs.symm
    subst hargs'
    simp only [execute_action]
    rw [hconn, exec_core_tap hA hC hx hy, runDevice_raise hrun]
    exact ⟨rfl, by simp [log_action, getField, hA, pyStr]⟩
  · -- type
    obtain ⟨t, hT⟩ := validate_type_shape hval hA
    have hargs' : args = ["shell", "input", "text", encodeSpaces t] := by
      simp only [adbArgsFor, getField, hA, Option.getD_some, pyEqStr] at hargs
      rw [hT] at hargs
      simp at hargs
      exact hargs.symm
    subst hargs'
    simp only [execute_action]
    rw [hconn, exec_core_type hA hT, runDevice_raise hrun]
    exact ⟨rfl, by simp [log_action, getField, hA, pyStr]⟩
  · -- home
    have hargs' : args = ["shell", "input", "keyevent", "KEYCODE_HOME"] := by
      simp only [adbArgsFor, getField, hA, Option.getD_some, pyEqStr] at hargs
      simp at hargs
      exact hargs.symm
    subst hargs'
    simp only [execute_action]
    rw [hconn, exec_core_home hA, runDevice_raise hrun]
    exact ⟨rfl, by simp [log_action, getField, hA, pyStr]⟩
  · -- back
    have hargs' : args = ["shell", "input", "keyevent", "KEYCODE_BACK"] := by
      simp only [adbArgsFor, getField, hA, Option.getD_some, pyEqStr] at hargs
      simp at hargs
      exact hargs.symm
    subst hargs'
    simp only [execute_action]
    rw [hconn, exec_core_back hA, runDevice_raise hrun]
    exact ⟨rfl, by simp [log_action, getField, hA, pyStr]⟩
  · -- wait: dispatches no adb command
    simp [adbArgsFor, getField, hA, pyEqStr] at hargs
  · -- done: dispatches no adb command
    simp [adbArgsFor, getField, hA, pyEqStr] at hargs

theorem execute_action_catches_exceptions_witness :
    (execute_action (.obj [("action", .str "back")]) adbRaises).1 =
      some ⟨"error", none, "Execution error: boom"⟩ :=
  (execute_action_catches_exceptions (.obj [("action", .str "back")]) adbRaises
    ["shell", "input", "keyevent", "KEYCODE_BACK"] "boom" rfl rfl rfl rfl).1

/-- C4: for a mapping whose `action` is `"tap"`, validation succeeds exactly
when `coordinates` is present and is a 2-element array of numeric values
(numeric in Python's `isinstance(c, (int, float))` sense); a missing
`coordinates` key yields the missing-field message, and the spec's example
inputs behave as enumerated: `[1,2]` and `[1.5,2.5]` pass, `["a","b"]`,
`[1]`, `[1,2,3]` fail with descriptive messages. -/
theorem validate_action_tap_coordinates (fields : List (String × JValue))
    (hact : jlookup fields "action" = some (.str "tap")) :
    ((validate_action (.obj fields)).1 = true ↔
      ∃ xv yv, jlookup fields "coordinates" = some (.arr [xv, yv]) ∧
        isNumeric xv = true ∧ isNumeric yv = true) ∧
    (jlookup fields "coordinates" = none →
      validate_action (.obj fields) = (false, "tap action requires 'coordinates' field")) ∧
    validate_action (.obj [("action", .str "tap"),
      ("coordinates", .arr [.int 1, .int 2])]) = (true, "") ∧
    validate_action (.obj [("action", .str "tap"),
      ("coordinates", .arr [.float (3 / 2), .float (5 / 2)])]) = (true, "") ∧
    validate_action (.obj [("action", .str "tap"),
      ("coordinates", .arr [.str "a", .str "b"])]) = (false, "coordinates must be numeric") ∧
    validate_action (.obj [("action", .str "tap"),
      ("coordinates", .arr [.int 1])]) = (false, "coordinates must be [x, y] array") ∧
    validate_action (.obj [("action", .str "tap"),
      ("coordinates", .arr [.int 1, .int 2, .int 3])]) =
      (false, "coordinates must be [x, y] array") := by
  refine ⟨⟨fun h => validate_tap_shape h hact, ?_⟩, ?_, rfl, rfl, rfl, rfl, rfl⟩
  · rintro ⟨xv, yv, hC, hx, hy⟩
    rw [validate_tap_eval hact hC hx hy]
  · intro hC
    simp only [validate_action]
    rw [hact]
    simp only [valid_actions, List.any, pyEqStr, Bool.or_eq_true, decide_eq_true_eq]
    rw [hC]
    simp

theorem validate_action_tap_coordinates_witness :
    (validate_action (.obj [("action", .str "tap"),
      ("coordinates", .arr [.int 1, .int 2])])).1 = true :=
  (validate_action_tap_coordinates
    [("action", .str "tap"), ("coordinates", .arr [.int 1, .int 2])] rfl).1.mpr
    ⟨.int 1, .int 2, rfl, rfl, rfl⟩

/-- C5: for a validated `type` action executed on a connected device whose
command exits 0, the adb payload is the text with every space replaced by
the `%s` escape token (`encodeSpaces`, the source's
`text.replace(" ", "%s")`), while the log line and the success message
carry the original text verbatim — the message is exactly `"Typed: <text>"`. -/
theorem execute_action_type_space_encoding (env : Env)
    (fields : List (String × JValue)) (text so se : String)
    (hA : jlookup fields "action" = some (.str "type"))
    (hT : jlookup fields "text" = some (.str text))
    (hconn : env.check_device_connected = true)
    (hrun : env.run_adb ["shell", "input", "text", encodeSpaces text] = .ok (so, se, 0)) :
    (execute_action (.obj fields) env).1 =
      some ⟨"success", some "type", "Typed: " ++ text⟩ ∧
    (execute_action (.obj fields) env).2.adb_calls =
      [["shell", "input", "text", encodeSpaces text]] ∧
    (execute_action (.obj fields) env).2.log_attempts =
      [mkLogEntry env.now "type" text "SUCCESS"] ∧
    encodeSpaces "hi there" = "hi%sthere" := by
  simp only [execute_action]
  rw [hconn, exec_core_type hA hT, runDevice_ok hrun]
  exact ⟨rfl, rfl, by simp [log_action], rfl⟩

theorem execute_action_type_space_encoding_witness :
    (execute_action (.obj [("action", .str "type"), ("text", .str "hi there")]) adbOk).1 =
      some ⟨"success", some "type", "Typed: hi there"⟩ ∧
    (execute_action (.obj [("action", .str "type"), ("text", .str "hi there")])
      adbOk).2.adb_calls = [["shell", "input", "text", "hi%sthere"]] := by
  have h := execute_action_type_space_encoding adbOk
    [("action", .str "type"), ("text", .str "hi there")] "hi there" "" ""
    rfl rfl rfl rfl
  exact ⟨h.1, by rw [h.2.1, h.2.2.2]⟩

/-- C6: `main` always prints exactly one JSON result object whose `status`
is `"success"` or `"error"`, and exits 1 when no input is provided, 1 when
the input fails to parse as JSON, 3 when the executed action reports an
error, and 0 on every success (including `done`). -/
theorem main_output_and_exit_codes (loads : String → Except String JValue)
    (jsonArg : Option String) (stdin : String) (env : Env) :
    (∃ r, (pyMain loads jsonArg stdin env).printed = some r ∧
      (r.status = "success" ∨ r.status = "error")) ∧
    (chooseInput jsonArg stdin = "" →
      (pyMain loads jsonArg stdin env).exitCode = 1 ∧
      (pyMain loads jsonArg stdin env).printed = some noActionResult) ∧
    (∀ e, chooseInput jsonArg stdin ≠ "" →
      loads (chooseInput jsonArg stdin) = .error e →
      (pyMain loads jsonArg stdin env).exitCode = 1 ∧
      (pyMain loads jsonArg stdin env).printed =
        some ⟨"error", none, "Invalid JSON: " ++ e⟩) ∧
    (∀ action r, chooseInput jsonArg stdin ≠ "" →
      loads (chooseInput jsonArg stdin) = .ok action →
      (pyMain loads jsonArg stdin env).printed = some r →
      (r.status = "error" → (pyMain loads jsonArg stdin env).exitCode = 3) ∧
      (r.status = "success" → (pyMain loads jsonArg stdin env).exitCode = 0)) := by
  by_cases hempty : chooseInput jsonArg stdin = ""
  · refine ⟨⟨noActionResult, ?_, .inr rfl⟩, fun _ => ⟨?_, ?_⟩,
      fun e hne _ => absurd hempty hne, fun v r hne _ _ => absurd hempty hne⟩ <;>
      simp [pyMain, hempty]
  · rcases hl : loads (chooseInput jsonArg stdin) with e | v
    · refine ⟨⟨⟨"error", none, "Invalid JSON: " ++ e⟩, ?_, .inr rfl⟩,
        fun h => absurd h hempty, ?_, ?_⟩
      · simp [pyMain, hempty, hl]
      · intro e' _ hl'
        injection hl' with h
        subst h
        constructor <;> simp [pyMain, hempty, hl]
      · intro v r _ hl' _
        simp at hl'
    · obtain ⟨r0, hr0, hst0⟩ :=
        (exec_core_shape v env.check_device_connected env.run_adb).1
      rcases hEx : execute_action v env with ⟨res, tr⟩
      have hres : res = some r0 := by
        have h1 : (execute_action v env).1 = some r0 := hr0
        rw [hEx] at h1
        exact h1
      subst hres
      refine ⟨⟨r0, ?_, hst0⟩, fun h => absurd h hempty, ?_, ?_⟩
      · simp [pyMain, hempty, hl, hEx]
      · intro e _ hl'
        simp at hl'
      · intro v' r _ hl' hpr
        injection hl' with h
        subst h
        have hpr' : r = r0 := by
          simp [pyMain, hempty, hl, hEx] at hpr
          exact hpr.symm
        subst hpr'
        constructor
        · intro hst
          simp [pyMain, hempty, hl, hEx, hst]
        · intro hst
          simp [pyMain, hempty, hl, hEx, hst]

theorem main_output_and_exit_codes_witness :
    (pyMain loadsRejects none "" adbOk).exitCode = 1 ∧
    (pyMain loadsRejects none "" adbOk).printed = some noActionResult :=
  (main_output_and_exit_codes loadsRejects none "" adbOk).2.1 (by decide)

/-- C9 (counterexample): with `--json " "` (a whitespace-only flag value),
the chosen input is empty after stripping whitespace, yet `main` does not
emit the "No action provided" result — the value is truthy, skips the
emptiness check untrimmed, and is handed to the JSON parser, failing as
invalid JSON. -/
theorem main_whitespace_flag_not_no_action :
    pyStrip (chooseInput (some " ") "") = "" ∧
    (pyMain loadsRejects (some " ") "" adbOk).printed =
      some ⟨"error", none, "Invalid JSON: Expecting value: line 1 column 1 (char 0)"⟩ ∧
    (pyMain loadsRejects (some " ") "" adbOk).printed ≠ some noActionResult ∧
    (pyMain loadsRejects (some " ") "" adbOk).parseAttempted = true := by
  refine ⟨by decide, ?_, ?_, ?_⟩
  · simp [pyMain, chooseInput, loadsRejects]
  · intro h
    simp [pyMain, chooseInput, loadsRejects, noActionResult] at h
  · simp [pyMain, chooseInput, loadsRejects]

/-- C9 (amended): the entry point takes the action string verbatim from the
`--json` flag when it is supplied and non-empty, and otherwise reads
standard input to completion and strips it (an empty flag value falls back
to stdin); whenever the chosen input is the empty string it immediately
emits the "No action provided" result with exit code 1, without invoking
the JSON parser.  (A whitespace-only flag value is not empty, so it reaches
the parser instead — see the counterexample.) -/
theorem main_input_selection (loads : String → Except String JValue)
    (jsonArg : Option String) (stdin : String) (env : Env) :
    (∀ s, jsonArg = some s → s ≠ "" → chooseInput jsonArg stdin = s) ∧
    ((jsonArg = none ∨ jsonArg = some "") → chooseInput jsonArg stdin = pyStrip stdin) ∧
    (chooseInput jsonArg stdin = "" →
      pyMain loads jsonArg stdin env =
        ⟨some noActionResult, 1, false, ⟨0, [], [], []⟩⟩) := by
  refine ⟨?_, ?_, ?_⟩
  · rintro s rfl hs
    simp [chooseInput, hs]
  · rintro (rfl | rfl) <;> simp [chooseInput]
  · intro h
    simp [pyMain, h]

theorem main_input_selection_witness :
    chooseInput (some "x") "ignored" = "x" ∧
    pyMain loadsRejects none "  " adbOk =
      ⟨some noActionResult, 1, false, ⟨0, [], [], []⟩⟩ :=
  ⟨(main_input_selection loadsRejects (some "x") "ignored" adbOk).1 "x" rfl (by decide),
   (main_input_selection loadsRejects none "  " adbOk).2.2 (by decide)⟩

/-- C10: the tap action `{"action": "tap", "coordinates": [true, false]}`
passes validation (Python's `bool` is a subtype of `int`, so booleans
satisfy the numeric check), and on a connected device whose tap command
exits 0 it succeeds with message `"Tapped at (1, 0)"` — the booleans are
silently coerced to the integers 1 and 0. -/
theorem execute_action_tap_bool_coercion (env : Env) (so se : String)
    (hconn : env.check_device_connected = true)
    (hrun : env.run_adb ["shell", "input", "tap", "1", "0"] = .ok (so, se, 0)) :
    validate_action (.obj [("action", .str "tap"),
      ("coordinates", .arr [.bool true, .bool false])]) = (true, "") ∧
    (execute_action (.obj [("action", .str "tap"),
      ("coordinates", .arr [.bool true, .bool false])]) env).1 =
      some ⟨"success", some "tap", "Tapped at (1, 0)"⟩ := by
  refine ⟨rfl, ?_⟩
  have hA : jlookup [("action", .str "tap"),
      ("coordinates", .arr [.bool true, .bool false])] "action" = some (.str "tap") := rfl
  have hC : jlookup [("action", .str "tap"),
      ("coordinates", .arr [.bool true, .bool false])] "coordinates" =
      some (.arr [.bool true, .bool false]) := rfl
  simp only [execute_action]
  rw [hconn, exec_core_tap hA hC rfl rfl]
  have hargs : (["shell", "input", "tap", toString (pyInt (JValue.bool true)),
      toString (pyInt (JValue.bool false))] : List String) =
      ["shell", "input", "tap", "1", "0"] := rfl
  rw [hargs, runDevice_ok hrun]
  rfl

theorem execute_action_tap_bool_coercion_witness :
    (execute_action (.obj [("action", .str "tap"),
      ("coordinates", .arr [.bool true, .bool false])]) adbOk).1 =
      some ⟨"success", some "tap", "Tapped at (1, 0)"⟩ :=
  (execute_action_tap_bool_coercion adbOk "" "" rfl rfl).2
